import Mathlib

/-!
Verification of the scan-metadata extraction logic of `elements_imaging/scan.py`
(the `ScanInfo.make` method and its helpers).

The embedding models the parsed scan object returned by `scanreader.read_scan`
as a structure carrying exactly the attributes that `ScanInfo.make` reads, and
models the three inserts of `make` (header row, field rows, file rows) as a
pure assembly function returning either the assembled record or an error.
DataJoint runs `make` inside one transaction, so a raised exception leaves no
rows behind; the `Except`-valued embedding reflects that atomicity.

Numbers that Python holds as floats are modelled as rationals; file paths are
modelled as lists of path components, as in `pathlib.PurePath.parts`.
-/

namespace ElementsImaging

/-- One entry of `scan.fields` (a scanreader ROI field): its x and y scan
angles in degrees and its depth in microns. -/
structure RawField where
  x : ℚ
  y : ℚ
  depth : ℚ
deriving DecidableEq, Inhabited, Repr

/-- The parsed scan object, with the attributes read by `ScanInfo.make`.
The angle-to-distance calibration `scan._degrees_to_microns` is format-defined
and carried as a function field. `image_height_in_microns` and
`image_width_in_microns` are optional because the Python code reads them with
`getattr(scan, ..., None)`. -/
structure Scan where
  num_fields : Nat
  num_channels : Nat
  num_frames : Nat
  num_scanning_depths : Nat
  num_rois : Nat
  is_multiROI : Bool
  motor_position_at_zero : ℚ × ℚ × ℚ
  fps : ℚ
  is_bidirectional : Bool
  seconds_per_line : ℚ
  temporal_fill_fraction : ℚ
  field_heights : List Nat
  field_widths : List Nat
  field_heights_in_microns : List ℚ
  field_widths_in_microns : List ℚ
  fields : List RawField
  field_offsets : List (List (List ℚ))
  image_height : Nat
  image_width : Nat
  image_height_in_microns : Option ℚ
  image_width_in_microns : Option ℚ
  scanning_depths : List ℚ
  degrees_to_microns : ℚ → ℚ

/-- The header row inserted by `self.insert1(...)` in `ScanInfo.make`.  Its
fields are exactly the non-key columns of the `ScanInfo` table definition:
note the motor-zero position contributes only its x and y coordinates. -/
structure ScanInfoRow where
  nfields : Nat
  nchannels : Nat
  ndepths : Nat
  nframes : Nat
  nrois : Nat
  x : ℚ
  y : ℚ
  fps : ℚ
  bidirectional : Bool
  usecs_per_line : ℚ
  fill_fraction : ℚ
deriving DecidableEq, Repr

/-- One row of the `ScanInfo.Field` part table. -/
structure FieldRow where
  field_idx : Nat
  px_height : Nat
  px_width : Nat
  um_height : Option ℚ
  um_width : Option ℚ
  field_x : ℚ
  field_y : ℚ
  field_z : ℚ
  delay_image : List (List ℚ)
deriving DecidableEq, Repr

/-- One row of the `ScanInfo.ScanFile` part table: a path relative to the
root data directory, kept as its components. -/
structure ScanFileRow where
  file_path : List String
deriving DecidableEq, Repr

/-- The complete record assembled by one `ScanInfo.make` call: the header row,
the field rows and the file rows. -/
structure ScanRecord where
  info : ScanInfoRow
  fields : List FieldRow
  files : List ScanFileRow
deriving DecidableEq, Repr

/-- The errors `ScanInfo.make` can raise after a successful header parse: the
`ValueError` of `pathlib.Path.relative_to` when a scan file is not under the
root data directory. -/
inductive ScanError where
  | pathResolution (path : List String)
deriving DecidableEq, Repr

/-- The header row built by the `self.insert1(dict(key, nfields=..., ...))`
call of `ScanInfo.make`. -/
def makeScanInfoRow (scan : Scan) : ScanInfoRow :=
  { nfields := scan.num_fields
    nchannels := scan.num_channels
    nframes := scan.num_frames
    ndepths := scan.num_scanning_depths
    x := scan.motor_position_at_zero.1
    y := scan.motor_position_at_zero.2.1
    fps := scan.fps
    bidirectional := scan.is_bidirectional
    usecs_per_line := scan.seconds_per_line * 1000000
    fill_fraction := scan.temporal_fill_fraction
    nrois := if scan.is_multiROI then scan.num_rois else 0 }

/-- The field row for index `field_id` in the `scan.is_multiROI` branch of
`ScanInfo.make`. -/
def roiField (scan : Scan) (field_id : Nat) : FieldRow :=
  { field_idx := field_id
    px_height := scan.field_heights.getD field_id 0
    px_width := scan.field_widths.getD field_id 0
    um_height := some (scan.field_heights_in_microns.getD field_id 0)
    um_width := some (scan.field_widths_in_microns.getD field_id 0)
    field_x := scan.motor_position_at_zero.1 +
      scan.degrees_to_microns (scan.fields.getD field_id default).x
    field_y := scan.motor_position_at_zero.2.1 +
      scan.degrees_to_microns (scan.fields.getD field_id default).y
    field_z := scan.motor_position_at_zero.2.2 +
      (scan.fields.getD field_id default).depth
    delay_image := scan.field_offsets.getD field_id [] }

/-- The field row for index `plane_idx` in the single-plane (`else`) branch of
`ScanInfo.make`. -/
def planeField (scan : Scan) (plane_idx : Nat) : FieldRow :=
  { field_idx := plane_idx
    px_height := scan.image_height
    px_width := scan.image_width
    um_height := scan.image_height_in_microns
    um_width := scan.image_width_in_microns
    field_x := scan.motor_position_at_zero.1
    field_y := scan.motor_position_at_zero.2.1
    field_z := scan.motor_position_at_zero.2.2 +
      scan.scanning_depths.getD plane_idx 0
    delay_image := scan.field_offsets.getD plane_idx [] }

/-- The list of field rows built by the `self.Field.insert([...])` call of
`ScanInfo.make`: one per field in multi-ROI mode, one per scanning depth
otherwise. -/
def makeFields (scan : Scan) : List FieldRow :=
  if scan.is_multiROI then
    (List.range scan.num_fields).map (roiField scan)
  else
    (List.range scan.num_scanning_depths).map (planeField scan)

/-- Componentwise model of `pathlib.Path(p).relative_to(root)`: strips `root`
as a component prefix of `p`, and is `none` (the `ValueError` case) when `p`
is not under `root`. -/
def relative_to : List String → List String → Option (List String)
  | p, [] => some p
  | [], _ :: _ => none
  | a :: p, b :: root => if a = b then relative_to p root else none

/-- Model of the list comprehension
`[pathlib.Path(f).relative_to(root).as_posix() for f in scan_filenames]`:
relativizes the paths in order, raising at the first path outside `root`. -/
def resolveFiles (root : List String) : List (List String) → Except ScanError (List (List String))
  | [] => .ok []
  | f :: fs =>
    match relative_to f root with
    | none => .error (.pathResolution f)
    | some r =>
      match resolveFiles root fs with
      | .error e => .error e
      | .ok rs => .ok (r :: rs)

/-- The body of `ScanInfo.make` after the scan has been parsed: assembles the
header row, the field rows and the relativized file rows into one record, or
fails. DataJoint wraps `make` in a transaction, so a failure inserts nothing;
the pure `Except` value models that all-or-nothing outcome. -/
def make (scan : Scan) (scan_filenames : List (List String)) (root : List String) :
    Except ScanError ScanRecord :=
  match resolveFiles root scan_filenames with
  | .error e => .error e
  | .ok scan_files =>
    .ok { info := makeScanInfoRow scan
          fields := makeFields scan
          files := scan_files.map (fun f => { file_path := f }) }

/-- A concrete multi-ROI scan used to instantiate the general theorems. -/
def sampleScan : Scan :=
  { num_fields := 2
    num_channels := 1
    num_frames := 100
    num_scanning_depths := 3
    num_rois := 2
    is_multiROI := true
    motor_position_at_zero := (10, 20, 0)
    fps := 8
    is_bidirectional := true
    seconds_per_line := 63 / 1000000
    temporal_fill_fraction := 7 / 10
    field_heights := [512, 256]
    field_widths := [512, 128]
    field_heights_in_microns := [400, 200]
    field_widths_in_microns := [400, 100]
    fields := [⟨1, 2, 50⟩, ⟨-1, 3, 100⟩]
    field_offsets := [[[0, 1]], [[2, 3]]]
    image_height := 512
    image_width := 512
    image_height_in_microns := some 500
    image_width_in_microns := some 500
    scanning_depths := [0, 5, 10]
    degrees_to_microns := fun d => 100 * d }

/-- The spec scenario scan: single-plane, three scanning depths `[0, 5, 10]`,
motor zero `(10, 20, 0)`. -/
def rasterScan : Scan := { sampleScan with is_multiROI := false }

/-- A scan whose geometry extraction yields zero fields (single-plane with
zero scanning depths) while the header still reports 100 frames. -/
def emptyFieldsScan : Scan :=
  { sampleScan with is_multiROI := false, num_scanning_depths := 0 }

theorem makeFields_getElem_roi (scan : Scan) (i : Nat) (hm : scan.is_multiROI = true)
    (hi : i < scan.num_fields) : (makeFields scan)[i]? = some (roiField scan i) := by
  simp [makeFields, hm, List.getElem?_map, List.getElem?_range, hi]

theorem makeFields_getElem_plane (scan : Scan) (i : Nat) (hm : scan.is_multiROI = false)
    (hi : i < scan.num_scanning_depths) :
    (makeFields scan)[i]? = some (planeField scan i) := by
  simp [makeFields, hm, List.getElem?_map, List.getElem?_range, hi]

theorem range_map_getElem_inv {α : Type} (n i : Nat) (f : Nat → α) (out : α)
    (h : ((List.range n).map f)[i]? = some out) : i < n ∧ out = f i := by
  rw [List.getElem?_map] at h
  by_cases hi : i < n
  · rw [List.getElem?_range hi] at h
    simp at h
    exact ⟨hi, h.symm⟩
  · rw [List.getElem?_eq_none (by simpa using Nat.le_of_not_lt hi)] at h
    simp at h

theorem makeFields_getElem_cases (scan : Scan) (i : Nat) (out : FieldRow)
    (h : (makeFields scan)[i]? = some out) :
    (scan.is_multiROI = true ∧ i < scan.num_fields ∧ out = roiField scan i) ∨
    (scan.is_multiROI = false ∧ i < scan.num_scanning_depths ∧ out = planeField scan i) := by
  unfold makeFields at h
  cases hm : scan.is_multiROI with
  | true =>
    rw [hm] at h
    simp only [if_true] at h
    obtain ⟨hi, hout⟩ := range_map_getElem_inv _ _ _ _ h
    exact Or.inl ⟨rfl, hi, hout⟩
  | false =>
    rw [hm] at h
    simp only [Bool.false_eq_true, if_false] at h
    obtain ⟨hi, hout⟩ := range_map_getElem_inv _ _ _ _ h
    exact Or.inr ⟨rfl, hi, hout⟩

theorem resolveFiles_ok_of_all (root : List String) (fns : List (List String))
    (h : ∀ f ∈ fns, (relative_to f root).isSome) :
    ∃ rs, resolveFiles root fns = .ok rs := by
  induction fns with
  | nil => exact ⟨[], rfl⟩
  | cons f fs ih =>
    obtain ⟨r, hr⟩ := Option.isSome_iff_exists.mp (h f (by simp))
    obtain ⟨rs, hrs⟩ := ih (fun g hg => h g (by simp [hg]))
    exact ⟨r :: rs, by simp [resolveFiles, hr, hrs]⟩

theorem resolveFiles_error_of_bad (root : List String) (fns : List (List String))
    (f : List String) (hmem : f ∈ fns) (hbad : relative_to f root = none) :
    ∃ bad, relative_to bad root = none ∧
      resolveFiles root fns = .error (.pathResolution bad) := by
  induction fns with
  | nil => simp at hmem
  | cons g gs ih =>
    rcases List.mem_cons.mp hmem with hfg | hmem2
    · subst hfg
      exact ⟨f, hbad, by simp [resolveFiles, hbad]⟩
    · cases hg : relative_to g root with
      | none => exact ⟨g, hg, by simp [resolveFiles, hg]⟩
      | some r =>
        obtain ⟨bad, hb1, hb2⟩ := ih hmem2
        exact ⟨bad, hb1, by simp [resolveFiles, hg, hb2]⟩

/-- C3: the number of produced field rows equals `num_fields` in multi-ROI
mode and `num_scanning_depths` otherwise, and the field indices of the
produced rows are exactly `0..n-1` in order, with no gaps or duplicates. -/
theorem makeFields_count_and_indices (scan : Scan) :
    (makeFields scan).length =
      (if scan.is_multiROI then scan.num_fields else scan.num_scanning_depths) ∧
    (makeFields scan).map FieldRow.field_idx = List.range (makeFields scan).length := by
  unfold makeFields
  have key : ∀ (g : Nat → FieldRow), (∀ i, (g i).field_idx = i) →
      ∀ n, List.map (FieldRow.field_idx ∘ g) (List.range n) = List.range n := by
    intro g hg n
    rw [show FieldRow.field_idx ∘ g = id from funext hg, List.map_id]
  cases hm : scan.is_multiROI <;>
    simp [List.map_map, key (roiField scan) (fun i => rfl),
      key (planeField scan) (fun i => rfl)]

/-- C6: the stored line period in microseconds is the scan line period in
seconds times 1,000,000, the fill fraction and the bidirectional flag pass
through unchanged, and dividing the stored value by 1,000,000 recovers the
seconds value exactly (the model uses rationals, so the float tolerance is
met exactly). -/
theorem usecs_per_line_conversion (scan : Scan) :
    (makeScanInfoRow scan).usecs_per_line = scan.seconds_per_line * 1000000 ∧
    (makeScanInfoRow scan).fill_fraction = scan.temporal_fill_fraction ∧
    (makeScanInfoRow scan).bidirectional = scan.is_bidirectional ∧
    (makeScanInfoRow scan).usecs_per_line / 1000000 = scan.seconds_per_line := by
  refine ⟨rfl, rfl, rfl, ?_⟩
  show scan.seconds_per_line * 1000000 / 1000000 = scan.seconds_per_line
  field_simp

/-- C7: the stored ROI count is 0 when the acquisition is not multi-ROI and
the reported ROI count when it is. -/
theorem nrois_from_mode (scan : Scan) :
    (makeScanInfoRow scan).nrois = if scan.is_multiROI then scan.num_rois else 0 := rfl

/-- C8 counterexample: two scans that differ only in the z coordinate of the
motor-zero position produce identical header rows, so the persisted header
record cannot contain all three motor-zero coordinates. -/
theorem header_row_drops_motor_z :
    ({ sampleScan with motor_position_at_zero := (10, 20, 5) } : Scan).motor_position_at_zero ≠
      ({ sampleScan with motor_position_at_zero := (10, 20, 7) } : Scan).motor_position_at_zero ∧
    makeScanInfoRow { sampleScan with motor_position_at_zero := (10, 20, 5) } =
      makeScanInfoRow { sampleScan with motor_position_at_zero := (10, 20, 7) } :=
  ⟨by decide, rfl⟩

/-- C8 amended: the header row stores the x and y motor-zero coordinates in
microns, but not z — the row is unchanged when only the z coordinate of the
motor-zero position changes. -/
theorem header_row_motor_xy (scan : Scan) (z : ℚ) :
    (makeScanInfoRow scan).x = scan.motor_position_at_zero.1 ∧
    (makeScanInfoRow scan).y = scan.motor_position_at_zero.2.1 ∧
    makeScanInfoRow { scan with motor_position_at_zero :=
        (scan.motor_position_at_zero.1, scan.motor_position_at_zero.2.1, z) } =
      makeScanInfoRow scan :=
  ⟨rfl, rfl, rfl⟩

/-- C9: whenever relativization of a path against the root succeeds, joining
the produced relative path back onto the root reproduces the original
path. -/
theorem relative_to_round_trip (p root rel : List String)
    (h : relative_to p root = some rel) : root ++ rel = p := by
  induction root generalizing p with
  | nil =>
    simp [relative_to] at h
    simp [h]
  | cons b rt ih =>
    cases p with
    | nil => simp [relative_to] at h
    | cons a pt =>
      simp only [relative_to] at h
      split at h
      · rename_i hab
        rw [List.cons_append, ih pt h, hab]
      · exact absurd h (by simp)

/-- Witness for C9 at a concrete path and root. -/
theorem relative_to_round_trip_witness :
    relative_to ["data", "sub", "a.tif"] ["data"] = some ["sub", "a.tif"] ∧
    ["data"] ++ ["sub", "a.tif"] = ["data", "sub", "a.tif"] :=
  ⟨by decide, relative_to_round_trip _ _ _ (by decide)⟩

/-- C1 counterexample: a scan whose header reports 100 frames while geometry
extraction yields zero fields is still assembled into a record — no
consistency check exists in the code and no error is raised. -/
theorem make_succeeds_with_zero_fields :
    emptyFieldsScan.num_frames = 100 ∧
    makeFields emptyFieldsScan = [] ∧
    make emptyFieldsScan [["data", "scan.tif"]] ["data"] =
      .ok { info := makeScanInfoRow emptyFieldsScan
            fields := []
            files := [⟨["scan.tif"]⟩] } := by
  refine ⟨rfl, rfl, ?_⟩
  have h2 : makeFields emptyFieldsScan = [] := rfl
  simp [make, resolveFiles, relative_to, h2]

/-- C1 amended: when the produced field sequence is empty while the header
reports frames, assembly does not fail — provided every file path resolves
under the root, `make` produces a record whose field list is empty. -/
theorem make_ok_despite_frames_without_fields (scan : Scan)
    (fns : List (List String)) (root : List String)
    (hfields : makeFields scan = []) (hframes : 0 < scan.num_frames)
    (hpaths : ∀ f ∈ fns, (relative_to f root).isSome) :
    ∃ rec : ScanRecord, make scan fns root = .ok rec ∧ rec.fields = [] := by
  obtain ⟨rs, hrs⟩ := resolveFiles_ok_of_all root fns hpaths
  refine ⟨{ info := makeScanInfoRow scan
            fields := makeFields scan
            files := rs.map (fun f => ⟨f⟩) }, ?_, hfields⟩
  simp [make, hrs]

/-- Witness for the amended C1 at a concrete zero-field scan. -/
theorem make_ok_despite_frames_without_fields_witness :
    ∃ rec : ScanRecord,
      make emptyFieldsScan [["data", "b.tif"]] ["data"] = .ok rec ∧ rec.fields = [] :=
  make_ok_despite_frames_without_fields emptyFieldsScan [["data", "b.tif"]] ["data"]
    rfl (by decide) (by decide)

/-- C2: when some scan file path is not under the root directory, `make`
fails with the path-resolution error and produces no record at all (the
`Except` result models the transactional all-or-nothing insert). -/
theorem make_fails_outside_root (scan : Scan) (fns : List (List String))
    (root : List String) (f : List String)
    (hmem : f ∈ fns) (hbad : relative_to f root = none) :
    ∃ bad, relative_to bad root = none ∧
      make scan fns root = .error (ScanError.pathResolution bad) := by
  obtain ⟨bad, h1, h2⟩ := resolveFiles_error_of_bad root fns f hmem hbad
  exact ⟨bad, h1, by simp [make, h2]⟩

/-- Witness for C2: a file list whose second entry lies outside the root. -/
theorem make_fails_outside_root_witness :
    ∃ bad, relative_to bad ["data"] = none ∧
      make sampleScan [["data", "a.tif"], ["other", "b.tif"]] ["data"] =
        .error (ScanError.pathResolution bad) :=
  make_fails_outside_root sampleScan [["data", "a.tif"], ["other", "b.tif"]] ["data"]
    ["other", "b.tif"] (by decide) (by decide)

/-- C4: in multi-ROI mode, field i has `field_x` equal to the motor-zero x
plus the angle-to-distance conversion of the field x scan angle, `field_y`
likewise from the y scan angle, and `field_z` equal to the motor-zero z plus
the reported depth with no conversion. -/
theorem multiROI_field_centers (scan : Scan) (i : Nat) (fr : RawField)
    (hm : scan.is_multiROI = true) (hi : i < scan.num_fields)
    (hf : scan.fields[i]? = some fr) :
    ∃ out : FieldRow, (makeFields scan)[i]? = some out ∧
      out.field_x = scan.motor_position_at_zero.1 + scan.degrees_to_microns fr.x ∧
      out.field_y = scan.motor_position_at_zero.2.1 + scan.degrees_to_microns fr.y ∧
      out.field_z = scan.motor_position_at_zero.2.2 + fr.depth := by
  refine ⟨roiField scan i, makeFields_getElem_roi scan i hm hi, ?_, ?_, ?_⟩ <;>
    simp [roiField, List.getD_eq_getElem?_getD, hf]

/-- Witness for C4 at field 1 of the concrete multi-ROI scan. -/
theorem multiROI_field_centers_witness :
    ∃ out : FieldRow, (makeFields sampleScan)[1]? = some out ∧
      out.field_x = 10 + sampleScan.degrees_to_microns (-1) ∧
      out.field_y = 20 + sampleScan.degrees_to_microns 3 ∧
      out.field_z = 0 + 100 :=
  multiROI_field_centers sampleScan 1 ⟨-1, 3, 100⟩ rfl (by decide) (by decide)

/-- C5: in single-plane mode, field i has `field_x` and `field_y` equal to
the motor-zero x and y, and `field_z` equal to the motor-zero z plus the
scanning depth at index i. -/
theorem singlePlane_field_geometry (scan : Scan) (i : Nat) (d : ℚ)
    (hm : scan.is_multiROI = false) (hi : i < scan.num_scanning_depths)
    (hd : scan.scanning_depths[i]? = some d) :
    ∃ out : FieldRow, (makeFields scan)[i]? = some out ∧
      out.field_x = scan.motor_position_at_zero.1 ∧
      out.field_y = scan.motor_position_at_zero.2.1 ∧
      out.field_z = scan.motor_position_at_zero.2.2 + d := by
  refine ⟨planeField scan i, makeFields_getElem_plane scan i hm hi, rfl, rfl, ?_⟩
  simp [planeField, List.getD_eq_getElem?_getD, hd]

/-- Witness for C5: the spec scenario scan (depths `[0, 5, 10]`, motor zero
`(10, 20, 0)`) yields `field_z` values 0, 5, 10 with `field_x = 10` and
`field_y = 20` throughout, and the theorem instantiates at depth index 1. -/
theorem singlePlane_field_geometry_witness :
    ((makeFields rasterScan).map FieldRow.field_z = [0, 5, 10] ∧
     (makeFields rasterScan).map FieldRow.field_x = [10, 10, 10] ∧
     (makeFields rasterScan).map FieldRow.field_y = [20, 20, 20]) ∧
    ∃ out : FieldRow, (makeFields rasterScan)[1]? = some out ∧
      out.field_x = 10 ∧ out.field_y = 20 ∧ out.field_z = 0 + 5 := by
  have hr : List.range 3 = [0, 1, 2] := rfl
  refine ⟨⟨?_, ?_, ?_⟩,
    singlePlane_field_geometry rasterScan 1 5 rfl (by decide)
      (by norm_num [rasterScan, sampleScan])⟩ <;>
    simp [makeFields, rasterScan, sampleScan, planeField, hr]

/-- C10: every multi-ROI field row carries micron sizes (never null), and a
null micron size can only occur in single-plane mode when the format omits
the shared micron-size attribute. -/
theorem um_size_null_only_single_plane (scan : Scan) (i : Nat) (out : FieldRow)
    (h : (makeFields scan)[i]? = some out) :
    (scan.is_multiROI = true → out.um_height.isSome ∧ out.um_width.isSome) ∧
    (out.um_height = none →
      scan.is_multiROI = false ∧ scan.image_height_in_microns = none) ∧
    (out.um_width = none →
      scan.is_multiROI = false ∧ scan.image_width_in_microns = none) := by
  rcases makeFields_getElem_cases scan i out h with ⟨hm, _, hout⟩ | ⟨hm, _, hout⟩
  · subst hout
    refine ⟨fun _ => ⟨rfl, rfl⟩, ?_, ?_⟩ <;>
      · intro hnone
        simp [roiField] at hnone
  · subst hout
    exact ⟨fun hmt => absurd (hm ▸ hmt) (by simp), fun hnone => ⟨hm, hnone⟩,
      fun hnone => ⟨hm, hnone⟩⟩

/-- Witness for C10 at field 0 of the concrete multi-ROI scan. -/
theorem um_size_null_only_single_plane_witness :
    (sampleScan.is_multiROI = true →
      (roiField sampleScan 0).um_height.isSome ∧ (roiField sampleScan 0).um_width.isSome) ∧
    ((roiField sampleScan 0).um_height = none →
      sampleScan.is_multiROI = false ∧ sampleScan.image_height_in_microns = none) ∧
    ((roiField sampleScan 0).um_width = none →
      sampleScan.is_multiROI = false ∧ sampleScan.image_width_in_microns = none) :=
  um_size_null_only_single_plane sampleScan 0 (roiField sampleScan 0)
    (makeFields_getElem_roi sampleScan 0 rfl (by decide))

end ElementsImaging
